import Mathlib

/-!
Verification development for the care-facility staffing/scheduling core
(`scheduling/ai_recommendations.py` and `scheduling/smart_scheduler.py`).

Numbers: Python floats are modelled by `ℚ` (exact arithmetic; the spec's
floating-point tolerances become exact equalities), Python ints by `ℤ`/`ℕ`.
Python dicts that are iterated are modelled by association lists in insertion
order; Python sets of staff ids by `List ℕ` with membership tests.
`round` (banker's rounding, half-to-even) is modelled by `pyRound`,
`round(x, 2)` by `pyRound2`, `int(x)` (truncation toward zero) by `pyTrunc`,
float `** 0.5` by `Rat.sqrt` (exact on perfect squares; every use in the
theorems below is at a perfect-square argument).
-/

/-- Day of week, as parsed from keys such as "MonShift1Time". -/
inductive Day where
  | mon | tues | wed | thurs | fri | sat | sun
deriving DecidableEq, Inhabited, Fintype

/-- Shift slot: Shift1 = day, Shift2 = swing, Shift3 = noc. -/
inductive ShiftType where
  | day | swing | noc
deriving DecidableEq, Inhabited, Fintype

/-- Iteration order of the weekly-pattern dicts in the source. -/
def daysList : List Day := [.mon, .tues, .wed, .thurs, .fri, .sat, .sun]

/-- Iteration order of the per-day shift dicts (`'day'`, `'swing'`, `'noc'`). -/
def shiftTypesList : List ShiftType := [.day, .swing, .noc]

/-- `hasSubstr n h` models Python's `n in h` on strings (char lists). -/
def hasSubstr : List Char → List Char → Bool
  | n, [] => n.isEmpty
  | n, c :: t => n.isPrefixOf (c :: t) || hasSubstr n t

/-- The `day_mapping` of `_analyze_daily_care_patterns`, in dict order. -/
def dayAbbrevs : List (String × Day) :=
  [("Mon", .mon), ("Tues", .tues), ("Wed", .wed), ("Thurs", .thurs),
   ("Fri", .fri), ("Sat", .sat), ("Sun", .sun)]

/-- The `shift_mapping` of the analysis methods, in dict order. -/
def shiftAbbrevs : List (String × ShiftType) :=
  [("Shift1", .day), ("Shift2", .swing), ("Shift3", .noc)]

/-- First day abbreviation occurring as a substring of the key (the source's
`for abbrev, full_name in day_mapping.items(): if abbrev in shift_key: break`). -/
def parseDayKey (key : String) : Option Day :=
  (dayAbbrevs.find? fun p => hasSubstr p.1.data key.data).map (·.2)

/-- First shift abbreviation occurring as a substring of the key. -/
def parseShiftKey (key : String) : Option ShiftType :=
  (shiftAbbrevs.find? fun p => hasSubstr p.1.data key.data).map (·.2)

/-- Python `round` to an integer: round half to even. -/
def pyRound (q : ℚ) : ℤ :=
  if q - ⌊q⌋ < 1/2 then ⌊q⌋
  else if 1/2 < q - ⌊q⌋ then ⌊q⌋ + 1
  else if ⌊q⌋ % 2 = 0 then ⌊q⌋ else ⌊q⌋ + 1

/-- Python `round(x, 2)`. -/
def pyRound2 (q : ℚ) : ℚ := (pyRound (q * 100) : ℚ) / 100

/-- Python `int(x)`: truncation toward zero. -/
def pyTrunc (q : ℚ) : ℤ := if 0 ≤ q then ⌊q⌋ else -⌊-q⌋

/-- One row of `adl_data` as loaded by `load_data` (the fields consumed by the
analysis methods: `resident_id`, `question_text`, `total_hours`; a missing
`total_hours` is `none`, matching `fillna(0)` handling). -/
structure ADLRecord where
  resident_id : ℕ
  question_text : String
  total_hours : Option ℚ
deriving DecidableEq, Inhabited

/-- One row of `resident_data`: `id`, `name`, `facility_section_id` and the
parsed `total_shift_times` JSON map (insertion-ordered association list,
minutes per "MonShift1Time"-style key). -/
structure Resident where
  id : ℕ
  name : String
  facility_section_id : ℕ
  total_shift_times : List (String × ℚ)
deriving DecidableEq, Inhabited

/-- The `total_care_hours` accumulation of `analyze_adl_patterns` (lines
135-139): every entry with positive minutes contributes `minutes / 60`. -/
def total_care_hours_of (tst : List (String × ℚ)) : ℚ :=
  tst.foldl (fun acc p => if 0 < p.2 then acc + p.2 / 60 else acc) 0

/-- `_analyze_shift_time_distribution`: positive-minute entries whose key
decodes to a shift add `minutes / 60` to that shift; undecodable keys are
dropped with a warning.  (The `resident_adls` parameter of the source is
unused in its body and therefore not a parameter here.) -/
def analyze_shift_time_distribution (tst : List (String × ℚ)) : ShiftType → ℚ :=
  tst.foldl
    (fun (f : ShiftType → ℚ) (p : String × ℚ) =>
      if 0 < p.2 then
        match parseShiftKey p.1 with
        | some s => fun s' => if s' = s then f s' + p.2 / 60 else f s'
        | none => f
      else f)
    (fun _ => 0)

/-- Add `h` hours to cell `(d, s)` of a day-by-shift matrix. -/
def addDaily (p : Day → ShiftType → ℚ) (d : Day) (s : ShiftType) (h : ℚ) :
    Day → ShiftType → ℚ :=
  fun d' s' => if d' = d ∧ s' = s then p d' s' + h else p d' s'

/-- Loop body of `_analyze_daily_care_patterns`: a positive-minute entry whose
key decodes to both a day and a shift adds `minutes / 60` to that cell; keys
that fail either decode are dropped with a warning. -/
def dailyStep (p : Day → ShiftType → ℚ) (e : String × ℚ) : Day → ShiftType → ℚ :=
  if 0 < e.2 then
    match parseDayKey e.1, parseShiftKey e.1 with
    | some d, some s => addDaily p d s (e.2 / 60)
    | _, _ => p
  else p

/-- `_analyze_daily_care_patterns`.  (As in the source, only
`total_shift_times` is read; the `resident_adls` parameter is unused.) -/
def analyze_daily_care_patterns (tst : List (String × ℚ)) : Day → ShiftType → ℚ :=
  tst.foldl dailyStep (fun _ _ => 0)

/-- Sum of all 21 cells of a day-by-shift matrix. -/
def dailyMatrixSum (p : Day → ShiftType → ℚ) : ℚ :=
  (daysList.map fun d => (shiftTypesList.map fun s => p d s).sum).sum

/-- Distinct `question_text` count (`resident_adls['question_text'].nunique()`). -/
def uniqueTaskCount (adls : List ADLRecord) : ℕ :=
  (adls.map (·.question_text)).dedup.length

/-- `resident_adls['total_hours'].fillna(0).mean()`. -/
def meanTaskHours (adls : List ADLRecord) : ℚ :=
  (adls.map fun a => a.total_hours.getD 0).sum / (adls.length : ℚ)

/-- `_calculate_acuity_score` (normal path; the `except` arm is modelled by
`calculate_acuity_score_handled` below). -/
def calc_acuity_score (adls : List ADLRecord) (total_care_hours : ℚ) : ℚ :=
  let hours_score := min (total_care_hours / 8) 10
  let complexity_score := min ((uniqueTaskCount adls : ℚ) / 5) 5
  let frequency_score := min (meanTaskHours adls / 2) 5
  min (hours_score * 0.4 + complexity_score * 0.3 + frequency_score * 0.3) 10

/-- Care-intensity tier. -/
inductive Intensity where
  | low | medium | high
deriving DecidableEq, Inhabited

/-- `_categorize_care_intensity`. -/
def categorize_care_intensity (s : ℚ) : Intensity :=
  if s ≤ 3 then .low else if s ≤ 6 then .medium else .high

/-- The per-resident analysis record built by `analyze_adl_patterns`. -/
structure ResidentAnalysis where
  name : String
  total_care_hours : ℚ
  acuity_score : ℚ
  shift_time_distribution : ShiftType → ℚ
  daily_care_patterns : Day → ShiftType → ℚ
  care_intensity : Intensity
  section_id : ℕ
deriving Inhabited

/-- The analysis entry for one resident (body of the `for resident in
self.resident_data` loop, lines 130-160). -/
def mkResidentAnalysis (adl_data : List ADLRecord) (r : Resident) : ResidentAnalysis :=
  let total := total_care_hours_of r.total_shift_times
  { name := r.name
    total_care_hours := total
    acuity_score := calc_acuity_score (adl_data.filter fun a => a.resident_id = r.id) total
    shift_time_distribution := analyze_shift_time_distribution r.total_shift_times
    daily_care_patterns := analyze_daily_care_patterns r.total_shift_times
    care_intensity :=
      categorize_care_intensity
        (calc_acuity_score (adl_data.filter fun a => a.resident_id = r.id) total)
    section_id := r.facility_section_id }

/-- One iteration of the `for resident in self.resident_data` loop: residents
with no ADL records are skipped (`continue`), all others get an entry. -/
def analyzeEntry (adl_data : List ADLRecord) (r : Resident) :
    Option (ℕ × ResidentAnalysis) :=
  if adl_data.filter (fun a => a.resident_id = r.id) = [] then none
  else some (r.id, mkResidentAnalysis adl_data r)

/-- `analyze_adl_patterns` (normal path): empty inputs yield the empty map;
the result dict is an insertion-ordered association list. -/
def analyze_adl_patterns (adl_data : List ADLRecord) (resident_data : List Resident) :
    List (ℕ × ResidentAnalysis) :=
  if adl_data = [] ∨ resident_data = [] then []
  else resident_data.filterMap (analyzeEntry adl_data)

/-- The base headcount of `calculate_staffing_requirements` (line 517) and
`recommend_shifts_for_week` (line 422): `max(1, round(hours / 8.0))`. -/
def required_staff (h : ℚ) : ℤ := max 1 (pyRound (h / 8))

/-- One per-shift entry of the `staffing_recommendations` dict. -/
structure ShiftStaffingRec where
  total_care_hours : ℚ
  base_staff_required : ℤ
  acuity_adjustment : ℤ
  total_staff_recommended : ℤ
  resident_count : ℕ
  high_acuity_count : ℕ
deriving DecidableEq, Inhabited

/-- Does a resident match the section filter (`section_id is None or
r['facility_section_id'] == section_id`)? -/
def sectionMatch (section_id : Option ℕ) (r : Resident) : Prop :=
  section_id = none ∨ section_id = some r.facility_section_id

instance (section_id : Option ℕ) (r : Resident) : Decidable (sectionMatch section_id r) := by
  unfold sectionMatch; infer_instance

/-- `calculate_staffing_requirements` (normal path).  The unused `target_date`
parameter of the source is dropped. -/
def calculate_staffing_requirements (adl_data : List ADLRecord)
    (resident_data : List Resident) (section_id : Option ℕ) :
    List (ShiftType × ShiftStaffingRec) :=
  let target_residents := resident_data.filter (sectionMatch section_id)
  if target_residents = [] then []
  else
    let adl_analysis := analyze_adl_patterns adl_data resident_data
    let target_analysis :=
      adl_analysis.filter fun p => target_residents.any fun r => r.id = p.1
    let total_residents := target_residents.length
    let high_acuity_count :=
      (target_analysis.filter fun p => p.2.care_intensity = .high).length
    shiftTypesList.map fun st =>
      let total_hours := (target_analysis.map fun p => p.2.shift_time_distribution st).sum
      let base_staff := required_staff total_hours
      let acuity_adjustment := max 0 ((high_acuity_count : ℤ) - base_staff)
      (st,
        { total_care_hours := pyRound2 total_hours
          base_staff_required := base_staff
          acuity_adjustment := acuity_adjustment
          total_staff_recommended := base_staff + acuity_adjustment
          resident_count := total_residents
          high_acuity_count := high_acuity_count })

/-- `_calculate_weekly_confidence` (normal path): 60 base, up to 20 points per
factor, result clamped to 60-100. -/
def calculate_weekly_confidence (care_hours : ℚ) (resident_count : ℕ) : ℤ :=
  let base_confidence : ℚ := 60
  let resident_factor := (min ((resident_count : ℚ) / 20) 1) * 20
  let hours_factor := (min (care_hours / 8) 1) * 20
  min 100 (max 60 (pyRound (base_confidence + resident_factor + hours_factor)))

/-- `_calculate_confidence_score` (normal path): 0.6 base, up to 0.2 per
factor, rounded to 2 decimals, clamped to 0.6-1.0.  The source reads
`reqs['resident_count']` and `reqs['total_care_hours']`; these are the two
parameters here. -/
def calculate_confidence_score (resident_count : ℕ) (total_care_hours : ℚ) : ℚ :=
  let base_confidence : ℚ := 0.6
  let data_quality := (min ((resident_count : ℚ) / 15) 1) * 0.2
  let care_consistency := (min (total_care_hours / 8) 1) * 0.2
  min 1 (max 0.6 (pyRound2 (base_confidence + data_quality + care_consistency)))

/-- One row of `staff_data` as assembled by `SmartSchedulerAI.load_data`
(the fields consumed by the scheduling path).  Shift types are modelled by the
`ShiftType` enum rather than raw strings; roles stay strings.  The
`max_hours` value taken from the availability record is not read by the
schedule-construction path (`_analyze_staffing_needs` reads
`max_hours_per_week`) and is therefore omitted. -/
structure Staff where
  id : ℕ
  first_name : String
  last_name : String
  role : String
  skills : List String
  max_hours_per_week : ℚ
  preferred_shifts : List ShiftType
deriving DecidableEq, Inhabited

/-- One row of `templates_data`. -/
structure SchedTemplate where
  shift_type : ShiftType
  name : String
  required_staff_count : ℕ
  required_roles : List String
deriving DecidableEq, Inhabited

/-- One row of `shifts_data` (the fields read by
`_is_staff_available_on_date`). -/
structure ShiftRow where
  id : ℕ
  date : String
deriving DecidableEq, Inhabited

/-- One row of `assignments_data` (the fields read by the scheduling path;
`id` and `assigned_role` are never consulted). -/
structure AssignmentRow where
  staff : ℕ
  shift : ℕ
deriving DecidableEq, Inhabited

/-- The data bundle loaded by `SmartSchedulerAI.load_data`. -/
structure SchedInput where
  staff_data : List Staff
  templates_data : List SchedTemplate
  shifts_data : List ShiftRow
  assignments_data : List AssignmentRow
deriving DecidableEq, Inhabited

/-- `_calculate_availability_score`: 100, minus 10 per existing persisted
assignment, plus 20 for any declared shift preference, plus 15 for more than
one skill, clamped to 0-100. -/
def calculate_availability_score (sd : SchedInput) (staff : Staff) : ℚ :=
  let current_assignments := (sd.assignments_data.filter fun a => a.staff = staff.id).length
  let s1 := 100 - (current_assignments : ℚ) * 10
  let s2 := if staff.preferred_shifts ≠ [] then s1 + 20 else s1
  let s3 := if staff.skills.length > 1 then s2 + 15 else s2
  max 0 (min 100 s3)

/-- One value of the `analysis['staff_availability']` dict. -/
structure StaffAvail where
  role : String
  skills : List String
  max_hours : ℚ
  current_hours : ℚ
  preferred_shifts : List ShiftType
  availability_score : ℚ
deriving DecidableEq, Inhabited

/-- The `staff_availability` part of `_analyze_staffing_needs` — the only part
of the analysis dict consumed by `_create_optimal_schedule` and its callees
(`shift_coverage`, `role_requirements` and the rest are reported but never
read by the scheduling path).  `max_hours` is `staff.get('max_hours_per_week',
40)` and `current_hours` starts (and, in this code path, stays) 0. -/
def analyze_staffing_needs (sd : SchedInput) : List (ℕ × StaffAvail) :=
  sd.staff_data.map fun st =>
    (st.id,
      { role := st.role
        skills := st.skills
        max_hours := st.max_hours_per_week
        current_hours := 0
        preferred_shifts := st.preferred_shifts
        availability_score := calculate_availability_score sd st })

/-- A staff dict copy (`staff.copy()`) carrying the availability score read
from the analysis — the `staff_copy` made in `_get_available_staff_for_shift`.
Its lifetime ends with the shift being staffed: the `availability_score -= 30`
performed after an assignment mutates this copy only. -/
structure ScoredStaff where
  staff : Staff
  availability_score : ℚ
deriving DecidableEq, Inhabited

/-- `_calculate_shift_specific_score`: the copy's availability score, +25 for
a matching declared preference, a NOC penalty/boost, a swing boost, a flat day
boost, clamped to 0-100. -/
def calculate_shift_specific_score (sc : ScoredStaff) (st : ShiftType) : ℚ :=
  let base := sc.availability_score
  let base := if sc.staff.preferred_shifts ≠ [] ∧ st ∈ sc.staff.preferred_shifts
              then base + 25 else base
  let base :=
    match st with
    | .noc =>
        let b := if ShiftType.noc ∈ sc.staff.preferred_shifts then base else base - 15
        if sc.staff.max_hours_per_week > 35 then b + 10 else b
    | .swing => if sc.staff.max_hours_per_week > 30 then base + 5 else base
    | .day => base + 5
  max 0 (min 100 base)

/-- `_is_staff_available_on_date`: false iff some persisted assignment of this
staff member resolves to a shift on this date. -/
def is_staff_available_on_date (sd : SchedInput) (staff_id : ℕ) (date : String) : Bool :=
  sd.assignments_data.all fun a =>
    if a.staff = staff_id then
      match sd.shifts_data.find? fun s => s.id = a.shift with
      | some s => !(s.date == date)
      | none => true
    else true

/-- `_get_available_staff_for_shift`: role must be required, staff must not be
in the day's assignment set, must have no persisted assignment on the date,
and must have `current_hours < max_hours` in the analysis.  (The `shift_type`
parameter of the source is unused in its body.  A staff id missing from the
analysis dict cannot occur when the analysis is built from the same
`staff_data`; it is modelled as exclusion.) -/
def get_available_staff_for_shift (sd : SchedInput) (date : String)
    (required_roles : List String) (avail : List (ℕ × StaffAvail))
    (day_staff_assignments : List ℕ) : List ScoredStaff :=
  sd.staff_data.filterMap fun st =>
    if st.role ∈ required_roles ∧ st.id ∉ day_staff_assignments
        ∧ is_staff_available_on_date sd st.id date then
      match avail.find? fun p => p.1 = st.id with
      | some p => if p.2.current_hours < p.2.max_hours
                  then some ⟨st, p.2.availability_score⟩ else none
      | none => none
    else none

/-- Stable insertion of `a` into a list sorted descending by key `k`:
`a` goes before the first strictly-smaller key, after equal keys. -/
def insertDescBy {α : Type} (k : α → ℚ) (a : α) : List α → List α
  | [] => [a]
  | b :: t => if k a < k b then b :: insertDescBy k a t else a :: b :: t

/-- Python's `list.sort(key=k, reverse=True)`: a stable descending sort. -/
def pySortDesc {α : Type} (k : α → ℚ) : List α → List α
  | [] => []
  | a :: t => insertDescBy k a (pySortDesc k t)

/-- Status of one shift in a generated day schedule. -/
inductive SchedStatus where
  | no_template | optimized
deriving DecidableEq, Inhabited

/-- One assigned-staff entry of a generated shift. -/
structure AssignedStaffEntry where
  staff_id : ℕ
  name : String
  role : String
  assignment_reason : String
deriving DecidableEq, Inhabited

/-- `_generate_assignment_reason`.  `reasons` always receives the role clause,
so the `"Best available match"` default of the source is unreachable. -/
def generate_assignment_reason (staff : Staff) (st : ShiftType) : String :=
  let reasons := ["Perfect " ++ staff.role.toUpper ++ " match"]
  let reasons := reasons ++
    (if staff.skills ≠ [] then
      ["Has required skills: " ++ String.intercalate ", " staff.skills] else [])
  let reasons := reasons ++
    (if staff.preferred_shifts ≠ [] ∧ st ∈ staff.preferred_shifts then
      ["Prefers this shift type"] else [])
  let reasons := reasons ++
    (if staff.max_hours_per_week > 30 then ["Experienced staff member"] else [])
  String.intercalate ". " reasons

/-- The per-shift result dict of `_optimize_shift_staffing`.  For a
`no_template` result the source dict carries only `status` and
`assigned_staff`; readers use `.get` defaults, modelled by zero/empty
fields. -/
structure ShiftSchedule where
  status : SchedStatus
  template_name : String
  required_staff : ℕ
  assigned_staff : List AssignedStaffEntry
  coverage_percentage : ℚ
deriving DecidableEq, Inhabited

/-- `_optimize_shift_staffing`.  Candidates are sorted by descending
shift-specific score (stable) and the top `required_staff_count` are taken.
The source then runs `staff_member['availability_score'] -= 30` on each chosen
candidate; that mutates the `staff.copy()` held in the local `available_staff`
list, whose lifetime ends here, after selection is already fixed — so the
decrement has no further observable effect and no counterpart below.
With `required_staff_count = 0` the source would raise `ZeroDivisionError`
(propagating to `generate_smart_week_schedule`'s `except`); `ℚ` division
yields coverage 0 instead. -/
def optimize_shift_staffing (sd : SchedInput) (date : String) (st : ShiftType)
    (avail : List (ℕ × StaffAvail)) (day_staff_assignments : List ℕ) : ShiftSchedule :=
  match sd.templates_data.find? fun t => t.shift_type = st with
  | none =>
      { status := .no_template, template_name := "", required_staff := 0
        assigned_staff := [], coverage_percentage := 0 }
  | some template =>
      let required := template.required_staff_count
      let available :=
        get_available_staff_for_shift sd date template.required_roles avail
          day_staff_assignments
      let sorted := pySortDesc (fun x => calculate_shift_specific_score x st) available
      let assigned := (sorted.take (min required sorted.length)).map fun sc =>
        { staff_id := sc.staff.id
          name := sc.staff.first_name ++ " " ++ sc.staff.last_name
          role := sc.staff.role
          assignment_reason := generate_assignment_reason sc.staff st }
      { status := .optimized
        template_name := template.name
        required_staff := required
        assigned_staff := assigned
        coverage_percentage := (assigned.length : ℚ) / (required : ℚ) * 100 }

/-- Staff ids assigned to one generated shift. -/
def assignedIds (ss : ShiftSchedule) : List ℕ := ss.assigned_staff.map (·.staff_id)

/-- One day of a generated week schedule.  The presentation-only `day_name`
field (`date.strftime('%A')`) is omitted. -/
structure DaySchedule where
  date : String
  shifts : List (ShiftType × ShiftSchedule)
deriving DecidableEq, Inhabited

/-- The inner `for shift_type in shift_types` loop of
`_create_optimal_schedule`: shifts are staffed in the fixed order given by the
list, and each shift's assigned staff ids are added to the day's assignment
set before the next shift is staffed. -/
def processDayShifts (sd : SchedInput) (avail : List (ℕ × StaffAvail)) (date : String) :
    List ShiftType → List ℕ → List (ShiftType × ShiftSchedule)
  | [], _ => []
  | st :: rest, day_staff_assignments =>
      let ss := optimize_shift_staffing sd date st avail day_staff_assignments
      (st, ss) ::
        processDayShifts sd avail date rest (day_staff_assignments ++ assignedIds ss)

/-- `_create_optimal_schedule`: each day is processed independently with a
fresh empty day-assignment set, shifts in Day → Swing → NOC order. -/
def create_optimal_schedule (sd : SchedInput) (week_dates : List String)
    (avail : List (ℕ × StaffAvail)) : List DaySchedule :=
  week_dates.map fun date =>
    { date := date, shifts := processDayShifts sd avail date shiftTypesList [] }

/-- The `schedule` component of `generate_smart_week_schedule`'s result (line
103 of the source): `_create_optimal_schedule` applied to the week's dates and
the freshly built staffing analysis. -/
def generate_smart_week_schedule_schedule (sd : SchedInput) (week_dates : List String) :
    List DaySchedule :=
  create_optimal_schedule sd week_dates (analyze_staffing_needs sd)

/-- Update the `staff_hours` dict of `_calculate_balance_score`: +8 hours for
one assignment (first-occurrence update, else append — Python dict insertion
order). -/
def bumpHours : List (ℕ × ℚ) → ℕ → List (ℕ × ℚ)
  | [], id => [(id, 8)]
  | (k, v) :: t, id => if k = id then (k, v + 8) :: t else (k, v) :: bumpHours t id

/-- The `staff_hours` dict accumulated by `_calculate_balance_score`: 8 hours
per assignment in an `optimized` shift. -/
def staff_hours_of (schedule : List DaySchedule) : List (ℕ × ℚ) :=
  schedule.foldl
    (fun acc d =>
      d.shifts.foldl
        (fun acc p =>
          if p.2.status = .optimized then
            p.2.assigned_staff.foldl (fun acc a => bumpHours acc a.staff_id) acc
          else acc)
        acc)
    []

/-- `_calculate_balance_score`: `max(0, 1 - stddev/mean)` of per-staff
assigned hours; 0 when no staff member has any assignment.  `** 0.5` is
modelled by `Rat.sqrt` (exact on perfect squares). -/
def calculate_balance_score (schedule : List DaySchedule) : ℚ :=
  let sh := staff_hours_of schedule
  if sh = [] then 0
  else
    let hours_list := sh.map (·.2)
    let n : ℚ := (hours_list.length : ℚ)
    let mean_hours := hours_list.sum / n
    let variance := (hours_list.map fun h => (h - mean_hours) ^ 2).sum / n
    let std_dev := Rat.sqrt variance
    if 0 < mean_hours then max 0 (1 - std_dev / mean_hours) else 0

/-- The accumulator of `_calculate_schedule_confidence`'s loop over one day's
shifts: `(total_shifts, covered_shifts, staff_utilization)`. -/
def shiftStatsStep (acc : ℕ × ℕ × ℚ) (p : ShiftType × ShiftSchedule) : ℕ × ℕ × ℚ :=
  if p.2.status = .optimized then
    (acc.1 + 1,
     (if p.2.coverage_percentage ≥ 100 then acc.2.1 + 1 else acc.2.1),
     acc.2.2 + p.2.coverage_percentage)
  else acc

/-- The double loop of `_calculate_schedule_confidence` counting optimized
shifts, fully covered shifts, and summed coverage percentages. -/
def scheduleStats (schedule : List DaySchedule) : ℕ × ℕ × ℚ :=
  schedule.foldl (fun acc d => d.shifts.foldl shiftStatsStep acc) (0, 0, 0)

/-- `_calculate_schedule_confidence`: 40 points scaled by the fraction of
optimized shifts at 100% coverage, 30 points scaled by the mean coverage
percentage (note: the percentage itself, a 0-100 value, not a 0-1 fraction),
30 points scaled by the balance score; the integer-truncated sum is clamped to
0-100.  Empty schedules and schedules with no optimized shift yield 0. -/
def calculate_schedule_confidence (schedule : List DaySchedule) : ℤ :=
  if schedule = [] then 0
  else
    let stats := scheduleStats schedule
    let total_shifts := stats.1
    let covered_shifts := stats.2.1
    let staff_utilization := stats.2.2
    if total_shifts = 0 then 0
    else
      let coverage_score := ((covered_shifts : ℚ) / (total_shifts : ℚ)) * 40
      let utilization_score := (staff_utilization / (total_shifts : ℚ)) * 30
      let balance_score := calculate_balance_score schedule * 30
      min 100 (max 0 (pyTrunc (coverage_score + utilization_score + balance_score)))

/-- Flattened list of all shift results of a schedule. -/
def allShifts (schedule : List DaySchedule) : List (ShiftType × ShiftSchedule) :=
  (schedule.map (·.shifts)).flatten

/-- Optimized-shift count, written independently of the fold. -/
def optCount (schedule : List DaySchedule) : ℕ :=
  (allShifts schedule).countP fun p => p.2.status = .optimized

/-- Fully-covered optimized-shift count, written independently of the fold. -/
def coveredCount (schedule : List DaySchedule) : ℕ :=
  (allShifts schedule).countP fun p =>
    p.2.status = .optimized ∧ p.2.coverage_percentage ≥ 100

/-- Summed coverage percentage over optimized shifts, written independently of
the fold. -/
def coverageSum (schedule : List DaySchedule) : ℚ :=
  (((allShifts schedule).filter fun p => p.2.status = .optimized).map
    fun p => p.2.coverage_percentage).sum

/-- The whole-schedule confidence as a single closed formula (the amended
form of the spec's description): fully-covered fraction × 40 + mean coverage
percentage × 30 + balance × 30, truncated and clamped to 0-100.  With `ℚ`'s
division-by-zero-is-zero convention this agrees with
`calculate_schedule_confidence` also in the degenerate cases. -/
def schedule_confidence_formula (schedule : List DaySchedule) : ℤ :=
  min 100 (max 0 (pyTrunc
    (((coveredCount schedule : ℚ) / (optCount schedule : ℚ)) * 40
      + (coverageSum schedule / (optCount schedule : ℚ)) * 30
      + calculate_balance_score schedule * 30)))

/-- The balance score as the spec sentence behind claim C6 describes it:
0 when only one staff member (or none) is assigned, otherwise
`max(0, 1 - stddev/mean)`. -/
def balance_score_claimC6 (schedule : List DaySchedule) : ℚ :=
  let sh := staff_hours_of schedule
  if sh.length ≤ 1 then 0
  else
    let hours_list := sh.map (·.2)
    let n : ℚ := (hours_list.length : ℚ)
    let mean_hours := hours_list.sum / n
    let variance := (hours_list.map fun h => (h - mean_hours) ^ 2).sum / n
    if 0 < mean_hours then max 0 (1 - Rat.sqrt variance / mean_hours) else 0

/-- The whole-schedule confidence as claim C6 states it: each component capped
at its share, with the mean per-shift coverage entering as a 0-1 fraction
(coverage percentage / 100). -/
def schedule_confidence_claimC6 (schedule : List DaySchedule) : ℤ :=
  min 100 (max 0 (pyTrunc
    (((coveredCount schedule : ℚ) / (optCount schedule : ℚ)) * 40
      + (coverageSum schedule / (optCount schedule : ℚ) / 100) * 30
      + balance_score_claimC6 schedule * 30)))

/-- Python `try: return body except: return default`, with the try-block
outcome (normal value or raised exception) abstracted as an `Except` value.
Each public entry point of the core wraps its body this way, so no exception
ever propagates to the caller. -/
def pyTryExcept {α : Type} (body : Except Unit α) (default : α) : α :=
  match body with
  | .ok v => v
  | .error _ => default

/-- `analyze_adl_patterns` with its `except` arm (line 164-166): any internal
failure degrades to the empty mapping. -/
def analyze_adl_patterns_handled (body : Except Unit (List (ℕ × ResidentAnalysis))) :
    List (ℕ × ResidentAnalysis) :=
  pyTryExcept body []

/-- `calculate_staffing_requirements` with its `except` arm (line 542-544):
any internal failure degrades to the empty mapping. -/
def calculate_staffing_requirements_handled
    (body : Except Unit (List (ShiftType × ShiftStaffingRec))) :
    List (ShiftType × ShiftStaffingRec) :=
  pyTryExcept body []

/-- One row of `recommend_shifts_for_week`'s result (the presentation-only
`reasoning` string, which interpolates float formatting, is omitted). -/
structure WeeklyRecommendation where
  day : Day
  shift_type : ShiftType
  care_hours : ℚ
  staff_required : ℤ
  resident_count : ℕ
  confidence_score : ℤ
deriving DecidableEq, Inhabited

/-- `recommend_shifts_for_week` with its `except` arm (line 445-449): any
internal failure degrades to the empty list. -/
def recommend_shifts_for_week_handled (body : Except Unit (List WeeklyRecommendation)) :
    List WeeklyRecommendation :=
  pyTryExcept body []

/-- One row of `recommend_optimal_shifts`'s result (presentation-only string
fields omitted). -/
structure OptimalShiftRecommendation where
  shift_type : ShiftType
  template_id : ℕ
  staff_required : ℤ
  care_hours : ℚ
  resident_count : ℕ
  high_acuity_count : ℕ
  confidence_score : ℚ
deriving DecidableEq, Inhabited

/-- `recommend_optimal_shifts` with its `except` arm (line 591-593): any
internal failure degrades to the empty list. -/
def recommend_optimal_shifts_handled
    (body : Except Unit (List OptimalShiftRecommendation)) :
    List OptimalShiftRecommendation :=
  pyTryExcept body []

/-- `generate_shift_template_recommendations` with its `except` arm (line
358-362): any internal failure degrades to the empty list.  (Row type shared
with the weekly recommendations; the extra static time fields are
presentation-only.) -/
def generate_shift_template_recommendations_handled
    (body : Except Unit (List WeeklyRecommendation)) :
    List WeeklyRecommendation :=
  pyTryExcept body []

/-- `_calculate_acuity_score` with its `except` arm (line 469-471): any
internal failure degrades to the neutral 5.0. -/
def calculate_acuity_score_handled (body : Except Unit ℚ) : ℚ :=
  pyTryExcept body 5

/-- `_calculate_weekly_confidence` with its `except` arm (line 670-672): any
internal failure degrades to the base confidence 60. -/
def calculate_weekly_confidence_handled (body : Except Unit ℤ) : ℤ :=
  pyTryExcept body 60

/-- `_calculate_confidence_score` with its `except` arm (line 696-698): any
internal failure degrades to the base confidence 0.6. -/
def calculate_confidence_score_handled (body : Except Unit ℚ) : ℚ :=
  pyTryExcept body 0.6

/-- Aggregated weekly care patterns across an analysis mapping (the
`weekly_patterns` accumulation of `recommend_shifts_for_week`). -/
def weekly_patterns_of (analysis : List (ℕ × ResidentAnalysis)) (d : Day)
    (s : ShiftType) : ℚ :=
  (analysis.map fun p => p.2.daily_care_patterns d s).sum

/-- The section filter of `recommend_shifts_for_week` (and of
`generate_shift_template_recommendations`): Python's `if section_id:` uses
truthiness, so a section id of 0 is treated like no filter. -/
def filter_analysis_by_section (analysis : List (ℕ × ResidentAnalysis)) :
    Option ℕ → List (ℕ × ResidentAnalysis)
  | some sid =>
      if sid = 0 then analysis else analysis.filter fun p => p.2.section_id = sid
  | none => analysis

/-- `recommend_shifts_for_week` (normal path).  A day with no aggregated care
hours produces no rows at all; within a day, zero-hour shifts are skipped. -/
def recommend_shifts_for_week (adl_data : List ADLRecord)
    (resident_data : List Resident) (section_id : Option ℕ) :
    List WeeklyRecommendation :=
  let analysis :=
    filter_analysis_by_section (analyze_adl_patterns adl_data resident_data) section_id
  if analysis.isEmpty then []
  else
    let recs := (daysList.map fun d =>
      let total_day := (shiftTypesList.map fun s => weekly_patterns_of analysis d s).sum
      if 0 < total_day then
        shiftTypesList.filterMap fun s =>
          let care_hours := weekly_patterns_of analysis d s
          if 0 < care_hours then
            some { day := d
                   shift_type := s
                   care_hours := pyRound2 care_hours
                   staff_required := required_staff care_hours
                   resident_count := analysis.length
                   confidence_score :=
                     calculate_weekly_confidence care_hours analysis.length }
          else none
      else []).flatten
    pySortDesc (fun r => r.care_hours) recs

/-! Concrete inputs used by the counterexamples and witnesses below. -/

/-- A care record for resident 1. -/
def exAdlC1 : ADLRecord :=
  { resident_id := 1, question_text := "Bathing", total_hours := some 1 }

/-- A resident whose shift-totals key carries positive minutes but decodes to
neither a day nor a shift. -/
def exResC1 : Resident :=
  { id := 1, name := "R", facility_section_id := 4,
    total_shift_times := [("UnknownTime", 60)] }

/-- A care record for resident 2. -/
def exAdlC1W : ADLRecord :=
  { resident_id := 2, question_text := "Dressing", total_hours := some 2 }

/-- The spec's scenario resident: 120 minutes Monday day, 60 minutes Tuesday
swing. -/
def exResC1W : Resident :=
  { id := 2, name := "W", facility_section_id := 4,
    total_shift_times := [("MonShift1Time", 120), ("TuesShift2Time", 60)] }

/-- A care record whose total-hours value is 70, for a resident with no shift
breakdown. -/
def exAdlC4 : ADLRecord :=
  { resident_id := 1, question_text := "Bathing", total_hours := some 70 }

/-- A resident with an empty `total_shift_times` map. -/
def exResC4 : Resident :=
  { id := 1, name := "M", facility_section_id := 4, total_shift_times := [] }

/-- A care record for resident 1. -/
def exAdlC10 : ADLRecord :=
  { resident_id := 1, question_text := "Bathing", total_hours := some 1 }

/-- A resident with care records. -/
def exResC10A : Resident :=
  { id := 1, name := "A", facility_section_id := 4,
    total_shift_times := [("MonShift1Time", 60)] }

/-- A resident with positive shift totals but no care records. -/
def exResC10B : Resident :=
  { id := 2, name := "B", facility_section_id := 4,
    total_shift_times := [("MonShift1Time", 600)] }

/-- A care record used by the C3 witness. -/
def exAdlC3 : ADLRecord :=
  { resident_id := 1, question_text := "Bathing", total_hours := some 1 }

/-- A resident with no recorded shift minutes at all. -/
def exResC3 : Resident :=
  { id := 1, name := "Z", facility_section_id := 4, total_shift_times := [] }

/-- A care record used by the C5 witness. -/
def exAdlC5 : ADLRecord :=
  { resident_id := 1, question_text := "Bathing", total_hours := some 2 }

/-- A staff member (no skills, no preferences). -/
def exStaffA : Staff :=
  { id := 1, first_name := "Ann", last_name := "Lee", role := "cna", skills := [],
    max_hours_per_week := 40, preferred_shifts := [] }

/-- A second, identical-scoring staff member listed after the first. -/
def exStaffB : Staff :=
  { id := 2, first_name := "Bob", last_name := "Roy", role := "cna", skills := [],
    max_hours_per_week := 40, preferred_shifts := [] }

/-- A day-shift template requiring one CNA. -/
def exTmplDay : SchedTemplate :=
  { shift_type := .day, name := "Day Shift", required_staff_count := 1,
    required_roles := ["cna"] }

/-- Scheduler input: two equal CNAs, one day template, nothing persisted. -/
def exSd : SchedInput :=
  { staff_data := [exStaffA, exStaffB], templates_data := [exTmplDay],
    shifts_data := [], assignments_data := [] }

/-- The first generated day of `exSd`'s one-day week. -/
def exDayC2 : DaySchedule :=
  (generate_smart_week_schedule_schedule exSd ["2025-01-06"]).getD 0 default

/-- An optimized day shift requiring 2 staff with 1 assigned (50% coverage). -/
def exShiftC6 : ShiftSchedule :=
  { status := .optimized, template_name := "Day Shift", required_staff := 2,
    assigned_staff := [{ staff_id := 1, name := "Ann Lee", role := "cna",
                         assignment_reason := "Perfect CNA match" }],
    coverage_percentage := 50 }

/-- A `no_template` shift result. -/
def exNoTmpl : ShiftSchedule :=
  { status := .no_template, template_name := "", required_staff := 0,
    assigned_staff := [], coverage_percentage := 0 }

/-- One-day schedule: a half-covered day shift staffed by a single person. -/
def exSchedC6 : List DaySchedule :=
  [{ date := "2025-01-06",
     shifts := [(.day, exShiftC6), (.swing, exNoTmpl), (.noc, exNoTmpl)] }]

/-- A fully covered single-staff day shift. -/
def exShiftC6W : ShiftSchedule :=
  { status := .optimized, template_name := "Day Shift", required_staff := 1,
    assigned_staff := [{ staff_id := 1, name := "Ann Lee", role := "cna",
                         assignment_reason := "Perfect CNA match" }],
    coverage_percentage := 100 }

/-- One-day schedule used by the C6 witness. -/
def exSchedC6W : List DaySchedule :=
  [{ date := "2025-01-06",
     shifts := [(.day, exShiftC6W), (.swing, exNoTmpl), (.noc, exNoTmpl)] }]

unseal Rat.add Rat.mul Rat.inv Rat.sub Rat.ofScientific

/-! Helper lemmas. -/

theorem floor_le_pyRound (q : ℚ) : ⌊q⌋ ≤ pyRound q := by
  unfold pyRound
  split_ifs <;> omega

theorem pyRound_le_floor_add_one (q : ℚ) : pyRound q ≤ ⌊q⌋ + 1 := by
  unfold pyRound
  split_ifs <;> omega

theorem pyRound_mono {a b : ℚ} (h : a ≤ b) : pyRound a ≤ pyRound b := by
  rcases lt_or_eq_of_le (Int.floor_le_floor h) with hf | hf
  · calc pyRound a ≤ ⌊a⌋ + 1 := pyRound_le_floor_add_one a
      _ ≤ ⌊b⌋ := by omega
      _ ≤ pyRound b := floor_le_pyRound b
  · have hr : a - (⌊a⌋ : ℚ) ≤ b - (⌊b⌋ : ℚ) := by
      rw [← hf]; linarith
    unfold pyRound
    rw [← hf]
    split_ifs <;> first | omega | linarith

/-- Every entry of the analysis mapping comes from a resident of the input
list that has at least one care record. -/
theorem mem_analyze_adl_patterns {adls : List ADLRecord} {res : List Resident}
    {e : ℕ × ResidentAnalysis} (he : e ∈ analyze_adl_patterns adls res) :
    ∃ r ∈ res, adls.filter (fun a => a.resident_id = r.id) ≠ []
      ∧ e = (r.id, mkResidentAnalysis adls r) := by
  unfold analyze_adl_patterns at he
  split at he
  · simp at he
  · obtain ⟨r, hr, hre⟩ := List.mem_filterMap.mp he
    unfold analyzeEntry at hre
    by_cases hf : adls.filter (fun a => a.resident_id = r.id) = []
    · rw [if_pos hf] at hre; cases hre
    · rw [if_neg hf] at hre
      exact ⟨r, hr, hf, (Option.some_inj.mp hre).symm⟩

/-- Claim C3, counterexample: with zero care hours the base-headcount function
returns 1, not 0 (`max(1, round(0/8)) = 1`). -/
theorem c3_required_staff_zero_counterexample : ¬ required_staff 0 = 0 := by decide

/-- Claim C3 (amended): the per-shift required-headcount function
`max(1, round(h/8))` is non-decreasing, with `required_staff 0 = 1` (not 0),
`required_staff 8 = 1`, `required_staff 17 = 2`; the no-manufactured-demand
behaviour lives in `recommend_shifts_for_week`, which emits no recommendation
at all when the aggregated care patterns are all zero. -/
theorem c3_required_staff_monotone_values :
    (∀ a b : ℚ, a ≤ b → required_staff a ≤ required_staff b)
    ∧ required_staff 0 = 1 ∧ required_staff 8 = 1 ∧ required_staff 17 = 2
    ∧ (∀ (adls : List ADLRecord) (res : List Resident) (sid : Option ℕ),
        (∀ e ∈ analyze_adl_patterns adls res, ∀ d s, e.2.daily_care_patterns d s = 0) →
        recommend_shifts_for_week adls res sid = []) := by
  refine ⟨?_, by decide, by decide, by decide, ?_⟩
  · intro a b h
    unfold required_staff
    have h8 : a / 8 ≤ b / 8 := by linarith
    have := pyRound_mono h8
    omega
  · intro adls res sid hz
    have hz' : ∀ p ∈ filter_analysis_by_section (analyze_adl_patterns adls res) sid,
        ∀ d s, p.2.daily_care_patterns d s = 0 := by
      intro p hp
      apply hz
      rcases sid with _ | s
      · exact hp
      · simp only [filter_analysis_by_section] at hp
        split_ifs at hp with h0
        · exact hp
        · exact (List.mem_filter.mp hp).1
    have hw : ∀ d s,
        weekly_patterns_of
          (filter_analysis_by_section (analyze_adl_patterns adls res) sid) d s = 0 := by
      intro d s
      apply List.sum_eq_zero
      intro x hx
      obtain ⟨p, hp, rfl⟩ := List.mem_map.mp hx
      exact hz' p hp d s
    unfold recommend_shifts_for_week
    dsimp only
    split_ifs with hE
    · rfl
    · have hflat : ∀ l ∈ daysList.map fun d =>
          if 0 < (shiftTypesList.map fun s =>
              weekly_patterns_of
                (filter_analysis_by_section (analyze_adl_patterns adls res) sid) d s).sum
          then
            shiftTypesList.filterMap fun s =>
              if 0 < weekly_patterns_of
                  (filter_analysis_by_section (analyze_adl_patterns adls res) sid) d s
              then
                some { day := d
                       shift_type := s
                       care_hours :=
                         pyRound2 (weekly_patterns_of
                           (filter_analysis_by_section
                             (analyze_adl_patterns adls res) sid) d s)
                       staff_required :=
                         required_staff (weekly_patterns_of
                           (filter_analysis_by_section
                             (analyze_adl_patterns adls res) sid) d s)
                       resident_count :=
                         (filter_analysis_by_section
                           (analyze_adl_patterns adls res) sid).length
                       confidence_score :=
                         calculate_weekly_confidence
                           (weekly_patterns_of
                             (filter_analysis_by_section
                               (analyze_adl_patterns adls res) sid) d s)
                           (filter_analysis_by_section
                             (analyze_adl_patterns adls res) sid).length }
              else none
          else ([] : List WeeklyRecommendation), l = [] := by
        intro l hl
        obtain ⟨d, _, rfl⟩ := List.mem_map.mp hl
        have hsum : (shiftTypesList.map fun s =>
            weekly_patterns_of
              (filter_analysis_by_section (analyze_adl_patterns adls res) sid) d s).sum
            = 0 := by
          apply List.sum_eq_zero
          intro x hx
          obtain ⟨s, _, rfl⟩ := List.mem_map.mp hx
          exact hw d s
        rw [if_neg (by rw [hsum]; exact lt_irrefl 0)]
      rw [List.flatten_eq_nil_iff.mpr hflat]
      rfl

/-- Claim C3, witness: the theorem applied at 1 ≤ 2 and at a concrete
no-care-hours input. -/
theorem c3_witness :
    ((1 : ℚ) ≤ 2 ∧ required_staff 1 ≤ required_staff 2)
    ∧ ((∀ e ∈ analyze_adl_patterns [exAdlC3] [exResC3], ∀ d s,
          e.2.daily_care_patterns d s = 0)
        ∧ recommend_shifts_for_week [exAdlC3] [exResC3] none = []) :=
  ⟨⟨by norm_num, c3_required_staff_monotone_values.1 1 2 (by norm_num)⟩,
   ⟨by decide,
    c3_required_staff_monotone_values.2.2.2.2 [exAdlC3] [exResC3] none (by decide)⟩⟩

/-- Claim C8: for every non-negative care-hours value and resident count, the
weekly confidence equals `round(60 + min(rc/20,1)*20 + min(ch/8,1)*20)`
clamped to [60, 100] and lies in [60, 100]; the single-shift confidence
equals `0.6 + min(rc/15,1)*0.2 + min(ch/8,1)*0.2` rounded to 2 decimals and
clamped to [0.6, 1.0], and lies in [0.6, 1.0]. -/
theorem c8_confidence_clamping :
    ∀ (care_hours : ℚ) (resident_count : ℕ), 0 ≤ care_hours →
      calculate_weekly_confidence care_hours resident_count
          = min 100 (max 60 (pyRound (60 + (min ((resident_count : ℚ) / 20) 1) * 20
              + (min (care_hours / 8) 1) * 20)))
        ∧ 60 ≤ calculate_weekly_confidence care_hours resident_count
        ∧ calculate_weekly_confidence care_hours resident_count ≤ 100
        ∧ calculate_confidence_score resident_count care_hours
          = min 1 (max 0.6 (pyRound2 (0.6 + (min ((resident_count : ℚ) / 15) 1) * 0.2
              + (min (care_hours / 8) 1) * 0.2)))
        ∧ 0.6 ≤ calculate_confidence_score resident_count care_hours
        ∧ calculate_confidence_score resident_count care_hours ≤ 1 := by
  intro ch rc _
  refine ⟨rfl, ?_, ?_, rfl, ?_, ?_⟩
  · exact le_min (by norm_num) (le_max_left 60 _)
  · exact min_le_left 100 _
  · exact le_min (by norm_num) (le_max_left 0.6 _)
  · exact min_le_left 1 _

/-- Claim C8, witness: the theorem applied at care-hours 4 and 10 residents. -/
theorem c8_witness :
    (0 : ℚ) ≤ 4
    ∧ 60 ≤ calculate_weekly_confidence 4 10
    ∧ calculate_weekly_confidence 4 10 ≤ 100
    ∧ 0.6 ≤ calculate_confidence_score 10 4
    ∧ calculate_confidence_score 10 4 ≤ 1 :=
  ⟨by norm_num,
   (c8_confidence_clamping 4 10 (by norm_num)).2.1,
   (c8_confidence_clamping 4 10 (by norm_num)).2.2.1,
   (c8_confidence_clamping 4 10 (by norm_num)).2.2.2.2.1,
   (c8_confidence_clamping 4 10 (by norm_num)).2.2.2.2.2⟩

/-- Claim C9: every public core operation is a total function whose `except`
arm converts an internal failure into the documented default: empty mapping
for the per-resident analysis and the staffing requirements, empty lists for
the recommendation methods, the neutral 5.0 (tier medium) for acuity, and the
floor confidences 60 and 0.6; a normal result passes through unchanged. -/
theorem c9_exception_policy :
    analyze_adl_patterns_handled (.error ()) = []
    ∧ calculate_staffing_requirements_handled (.error ()) = []
    ∧ recommend_shifts_for_week_handled (.error ()) = []
    ∧ recommend_optimal_shifts_handled (.error ()) = []
    ∧ generate_shift_template_recommendations_handled (.error ()) = []
    ∧ calculate_acuity_score_handled (.error ()) = 5
    ∧ categorize_care_intensity (calculate_acuity_score_handled (.error ())) = .medium
    ∧ calculate_weekly_confidence_handled (.error ()) = 60
    ∧ calculate_confidence_score_handled (.error ()) = 0.6
    ∧ (∀ v : List (ℕ × ResidentAnalysis), analyze_adl_patterns_handled (.ok v) = v)
    ∧ (∀ v : ℚ, calculate_acuity_score_handled (.ok v) = v) :=
  ⟨rfl, rfl, rfl, rfl, rfl, rfl, by decide, rfl, rfl, fun _ => rfl, fun _ => rfl⟩

/-- Claim C5: the acuity score equals
`min(0.4*min(h/8,10) + 0.3*min(tasks/5,5) + 0.3*min(mean/2,5), 10)`, lies in
[0, 10] for non-negative inputs, and the tier is exactly low for score ≤ 3,
medium for 3 < score ≤ 6, high for score > 6. -/
theorem c5_acuity_formula_bounds_tiers :
    ∀ (adls : List ADLRecord) (total : ℚ),
      adls ≠ [] → 0 ≤ total → (∀ a ∈ adls, 0 ≤ a.total_hours.getD 0) →
      calc_acuity_score adls total
          = min ((min (total / 8) 10) * 0.4 + (min ((uniqueTaskCount adls : ℚ) / 5) 5) * 0.3
              + (min (meanTaskHours adls / 2) 5) * 0.3) 10
        ∧ 0 ≤ calc_acuity_score adls total
        ∧ calc_acuity_score adls total ≤ 10
        ∧ (∀ s : ℚ, (categorize_care_intensity s = .low ↔ s ≤ 3)
            ∧ (categorize_care_intensity s = .medium ↔ 3 < s ∧ s ≤ 6)
            ∧ (categorize_care_intensity s = .high ↔ 6 < s)) := by
  intro adls total _ htot hnn
  have hmean : 0 ≤ meanTaskHours adls := by
    unfold meanTaskHours
    apply div_nonneg
    · apply List.sum_nonneg
      intro x hx
      obtain ⟨a, ha, rfl⟩ := List.mem_map.mp hx
      exact hnn a ha
    · positivity
  have h1 : 0 ≤ min (total / 8) 10 := le_min (by positivity) (by norm_num)
  have h2 : 0 ≤ min ((uniqueTaskCount adls : ℚ) / 5) 5 := le_min (by positivity) (by norm_num)
  have h3 : 0 ≤ min (meanTaskHours adls / 2) 5 := le_min (by linarith) (by norm_num)
  refine ⟨rfl, ?_, ?_, ?_⟩
  · unfold calc_acuity_score
    refine le_min ?_ (by norm_num)
    have := mul_nonneg h1 (by norm_num : (0:ℚ) ≤ 0.4)
    have := mul_nonneg h2 (by norm_num : (0:ℚ) ≤ 0.3)
    have := mul_nonneg h3 (by norm_num : (0:ℚ) ≤ 0.3)
    linarith
  · exact min_le_right _ 10
  · intro s
    unfold categorize_care_intensity
    split_ifs with hl hm
    all_goals refine ⟨?_, ?_, ?_⟩ <;> simp_all
    all_goals linarith

/-- Claim C5, witness: the theorem applied to one record with total 4 hours. -/
theorem c5_witness :
    ([exAdlC5] ≠ [] ∧ (0 : ℚ) ≤ 4 ∧ ∀ a ∈ [exAdlC5], 0 ≤ a.total_hours.getD 0)
    ∧ 0 ≤ calc_acuity_score [exAdlC5] 4 ∧ calc_acuity_score [exAdlC5] 4 ≤ 10 :=
  ⟨⟨by decide, by norm_num, by decide⟩,
   (c5_acuity_formula_bounds_tiers [exAdlC5] 4 (by decide) (by norm_num) (by decide)).2.1,
   (c5_acuity_formula_bounds_tiers [exAdlC5] 4 (by decide) (by norm_num) (by decide)).2.2.1⟩

theorem foldl_total_shift (l : List (String × ℚ)) (a : ℚ) :
    l.foldl (fun acc p => if 0 < p.2 then acc + p.2 / 60 else acc) a
      = a + l.foldl (fun acc p => if 0 < p.2 then acc + p.2 / 60 else acc) 0 := by
  induction l generalizing a with
  | nil => simp
  | cons e t ih =>
      simp only [List.foldl_cons]
      by_cases h : 0 < e.2
      · rw [if_pos h, if_pos h, ih (a + e.2 / 60), ih (0 + e.2 / 60)]
        ring
      · rw [if_neg h, if_neg h, ih a]

theorem foldl_total_care (l : List (String × ℚ)) (a : ℚ) :
    l.foldl (fun acc p => if 0 < p.2 then acc + p.2 / 60 else acc) a
      = a + total_care_hours_of l := by
  unfold total_care_hours_of
  exact foldl_total_shift l a

theorem total_care_hours_cons (e : String × ℚ) (t : List (String × ℚ)) :
    total_care_hours_of (e :: t)
      = (if 0 < e.2 then e.2 / 60 else 0) + total_care_hours_of t := by
  unfold total_care_hours_of
  rw [List.foldl_cons, foldl_total_shift]
  split_ifs <;> ring

theorem dailyMatrixSum_addDaily (p : Day → ShiftType → ℚ) (d : Day) (s : ShiftType)
    (h : ℚ) : dailyMatrixSum (addDaily p d s h) = dailyMatrixSum p + h := by
  cases d <;> cases s <;>
    simp [dailyMatrixSum, addDaily, daysList, shiftTypesList] <;> ring

theorem dailyMatrixSum_fold (l : List (String × ℚ)) (p : Day → ShiftType → ℚ)
    (hp : ∀ e ∈ l, 0 < e.2 → (parseDayKey e.1).isSome ∧ (parseShiftKey e.1).isSome) :
    dailyMatrixSum (l.foldl dailyStep p) = dailyMatrixSum p + total_care_hours_of l := by
  induction l generalizing p with
  | nil => simp [total_care_hours_of]
  | cons e t ih =>
      have hstep : dailyMatrixSum (dailyStep p e)
          = dailyMatrixSum p + (if 0 < e.2 then e.2 / 60 else 0) := by
        unfold dailyStep
        by_cases hpos : 0 < e.2
        · obtain ⟨hd, hs⟩ := hp e (List.mem_cons_self e t) hpos
          obtain ⟨d, hd'⟩ := Option.isSome_iff_exists.mp hd
          obtain ⟨s, hs'⟩ := Option.isSome_iff_exists.mp hs
          rw [if_pos hpos, hd', hs', if_pos hpos, dailyMatrixSum_addDaily]
        · rw [if_neg hpos, if_neg hpos, add_zero]
      rw [List.foldl_cons, ih (dailyStep p e) (fun x hx => hp x (List.mem_cons_of_mem e hx)),
        hstep, total_care_hours_cons]
      ring

/-- Claim C1, counterexample: a resident whose only shift-totals key
"UnknownTime" decodes to no day/shift has `total_care_hours = 1` while every
matrix cell is 0, so the 21-cell sum misses the total by 1, far beyond the
1e-6 tolerance. -/
theorem c1_conservation_counterexample :
    (analyze_adl_patterns [exAdlC1] [exResC1]).map
        (fun p => (p.1, dailyMatrixSum p.2.daily_care_patterns, p.2.total_care_hours))
      = [(1, 0, 1)]
    ∧ ¬(|dailyMatrixSum ((analyze_adl_patterns [exAdlC1] [exResC1]).getD 0
            (0, default)).2.daily_care_patterns
          - ((analyze_adl_patterns [exAdlC1] [exResC1]).getD 0
            (0, default)).2.total_care_hours| ≤ 1 / 1000000) := by
  constructor
  · decide
  · decide

/-- Claim C1 (amended): for every resident in the analysis, the 21-cell sum of
the day-by-shift matrix equals the reported total weekly care hours, provided
every positive-minute key of that resident's shift totals decodes to a
recognized day and a recognized shift.  (There is a single source path —
`total_shift_times`; keys that fail to decode are counted in the total but
dropped from the matrix, which is the only way the two can differ.) -/
theorem c1_conservation_of_decodable :
    ∀ (adls : List ADLRecord) (res : List Resident),
      (∀ r ∈ res, ∀ e ∈ r.total_shift_times,
        0 < e.2 → (parseDayKey e.1).isSome ∧ (parseShiftKey e.1).isSome) →
      ∀ p ∈ analyze_adl_patterns adls res,
        dailyMatrixSum p.2.daily_care_patterns = p.2.total_care_hours := by
  intro adls res h p hp
  obtain ⟨r, hr, _, rfl⟩ := mem_analyze_adl_patterns hp
  show dailyMatrixSum (mkResidentAnalysis adls r).daily_care_patterns
      = (mkResidentAnalysis adls r).total_care_hours
  unfold mkResidentAnalysis analyze_daily_care_patterns
  rw [dailyMatrixSum_fold r.total_shift_times _ (h r hr)]
  have hzero : dailyMatrixSum (fun _ _ => 0) = 0 := by decide
  rw [hzero, zero_add]

/-- Claim C1, witness: the theorem applied to the spec's scenario resident
(120 minutes Monday day, 60 minutes Tuesday swing). -/
theorem c1_witness :
    (∀ r ∈ [exResC1W], ∀ e ∈ r.total_shift_times,
      0 < e.2 → (parseDayKey e.1).isSome ∧ (parseShiftKey e.1).isSome)
    ∧ ∀ p ∈ analyze_adl_patterns [exAdlC1W] [exResC1W],
        dailyMatrixSum p.2.daily_care_patterns = p.2.total_care_hours :=
  ⟨by decide, c1_conservation_of_decodable [exAdlC1W] [exResC1W] (by decide)⟩

/-- Claim C4, counterexample: a resident with an empty shift-totals map and a
care record whose total-hours value is 70 gets an all-zero matrix and zero
total hours — not `70/7/3 ≈ 3.333` per cell as the claimed even-spread
fallback would give. -/
theorem c4_even_spread_counterexample :
    (analyze_adl_patterns [exAdlC4] [exResC4]).map
        (fun p => (p.1, p.2.total_care_hours, dailyMatrixSum p.2.daily_care_patterns,
          p.2.daily_care_patterns Day.mon ShiftType.day))
      = [(1, 0, 0, 0)]
    ∧ (70 : ℚ) / 7 / 3 ≠ 0 := by
  exact ⟨by decide, by decide⟩

/-- Claim C4 (amended): aggregation reads only the resident's
`total_shift_times`; when that map is empty the day-by-shift matrix, the
total care hours and the per-shift distribution are all zero.  No fallback to
the care records' own per-shift maps or to an even spread of their total-hours
value exists anywhere in the analysis. -/
theorem c4_empty_shift_totals_all_zero :
    ∀ (adls : List ADLRecord) (res : List Resident) (p : ℕ × ResidentAnalysis),
      p ∈ analyze_adl_patterns adls res →
      (∀ r ∈ res, r.id = p.1 → r.total_shift_times = []) →
      (∀ d s, p.2.daily_care_patterns d s = 0)
        ∧ p.2.total_care_hours = 0
        ∧ (∀ s, p.2.shift_time_distribution s = 0) := by
  intro adls res p hp h
  obtain ⟨r, hr, _, rfl⟩ := mem_analyze_adl_patterns hp
  have htst : r.total_shift_times = [] := h r hr rfl
  refine ⟨?_, ?_, ?_⟩
  · intro d s
    show analyze_daily_care_patterns r.total_shift_times d s = 0
    rw [htst]
    rfl
  · show total_care_hours_of r.total_shift_times = 0
    rw [htst]
    rfl
  · intro s
    show analyze_shift_time_distribution r.total_shift_times s = 0
    rw [htst]
    rfl

/-- Claim C4, witness: the theorem applied to the empty-map resident with a
70-hour care record. -/
theorem c4_witness :
    ((1, mkResidentAnalysis [exAdlC4] exResC4) ∈ analyze_adl_patterns [exAdlC4] [exResC4]
      ∧ (∀ r ∈ [exResC4], r.id = 1 → r.total_shift_times = []))
    ∧ (∀ d s,
        (1, mkResidentAnalysis [exAdlC4] exResC4).2.daily_care_patterns d s = 0)
    ∧ (1, mkResidentAnalysis [exAdlC4] exResC4).2.total_care_hours = 0 :=
  ⟨⟨show _ ∈ [(1, mkResidentAnalysis [exAdlC4] exResC4)] from List.mem_singleton.mpr rfl,
    by decide⟩,
   (c4_empty_shift_totals_all_zero [exAdlC4] [exResC4]
     (1, mkResidentAnalysis [exAdlC4] exResC4)
     (show _ ∈ [(1, mkResidentAnalysis [exAdlC4] exResC4)] from List.mem_singleton.mpr rfl)
     (by decide)).1,
   (c4_empty_shift_totals_all_zero [exAdlC4] [exResC4]
     (1, mkResidentAnalysis [exAdlC4] exResC4)
     (show _ ∈ [(1, mkResidentAnalysis [exAdlC4] exResC4)] from List.mem_singleton.mpr rfl)
     (by decide)).2.1⟩

/-- Claim C10, counterexample: the record-less resident 2 is omitted from the
analysis, yet adding them changes the staffing-requirement output — every
per-shift entry's `resident_count` counts them. -/
theorem c10_recordless_resident_counterexample :
    (analyze_adl_patterns [exAdlC10] [exResC10A, exResC10B]).map (·.1) = [1]
    ∧ (calculate_staffing_requirements [exAdlC10] [exResC10A, exResC10B] none).map
        (fun p => p.2.resident_count) = [2, 2, 2]
    ∧ (calculate_staffing_requirements [exAdlC10] [exResC10A] none).map
        (fun p => p.2.resident_count) = [1, 1, 1] := by
  exact ⟨by decide, by decide, by decide⟩

/-- Claim C10 (amended): a resident with no care records is omitted from the
per-resident analysis, and (with distinct resident ids) contributes nothing to
the analysis mapping, the per-shift care-hour totals, headcounts, acuity
adjustments or high-acuity counts of the staffing requirements — but they are
still counted by the `resident_count` field of every staffing entry, which is
why the claim as stated fails. -/
theorem c10_recordless_resident_omitted :
    ∀ (adls : List ADLRecord) (res₁ res₂ : List Resident) (r : Resident),
      (∀ a ∈ adls, a.resident_id ≠ r.id) →
      (∀ r' ∈ res₁ ++ res₂, r'.id ≠ r.id) →
      analyze_adl_patterns adls (res₁ ++ r :: res₂)
          = analyze_adl_patterns adls (res₁ ++ res₂)
        ∧ ∀ sid : Option ℕ, (res₁ ++ res₂).filter (sectionMatch sid) ≠ [] →
            (calculate_staffing_requirements adls (res₁ ++ r :: res₂) sid).map
                (fun p => (p.1, p.2.total_care_hours, p.2.base_staff_required,
                  p.2.acuity_adjustment, p.2.total_staff_recommended,
                  p.2.high_acuity_count))
              = (calculate_staffing_requirements adls (res₁ ++ res₂) sid).map
                (fun p => (p.1, p.2.total_care_hours, p.2.base_staff_required,
                  p.2.acuity_adjustment, p.2.total_staff_recommended,
                  p.2.high_acuity_count)) := by
  intro adls res₁ res₂ r hadl hid
  have hfilter_r : adls.filter (fun a => a.resident_id = r.id) = [] :=
    List.filter_eq_nil_iff.mpr (fun a ha => by simpa using hadl a ha)
  have hA : analyze_adl_patterns adls (res₁ ++ r :: res₂)
      = analyze_adl_patterns adls (res₁ ++ res₂) := by
    unfold analyze_adl_patterns
    by_cases ha : adls = []
    · simp [ha]
    · rw [if_neg (by simp [ha])]
      by_cases hres : res₁ ++ res₂ = []
      · obtain ⟨h1, h2⟩ := List.append_eq_nil.mp hres
        subst h1; subst h2
        simp
        exact if_pos hfilter_r
      · rw [if_neg (by simp [ha, hres])]
        have hfr : analyzeEntry adls r = none := if_pos hfilter_r
        rw [List.filterMap_append, List.filterMap_append,
          List.filterMap_cons_none hfr]
  refine ⟨hA, ?_⟩
  intro sid hne
  obtain ⟨x, hx⟩ := List.exists_mem_of_ne_nil _ hne
  have hxL : x ∈ (res₁ ++ r :: res₂).filter (sectionMatch sid) := by
    have hx' := List.mem_filter.mp hx
    refine List.mem_filter.mpr ⟨?_, hx'.2⟩
    rcases List.mem_append.mp hx'.1 with h | h
    · exact List.mem_append.mpr (Or.inl h)
    · exact List.mem_append.mpr (Or.inr (List.mem_cons_of_mem r h))
  have hneL : (res₁ ++ r :: res₂).filter (sectionMatch sid) ≠ [] :=
    List.ne_nil_of_mem hxL
  have hany : ∀ p ∈ analyze_adl_patterns adls (res₁ ++ res₂),
      (((res₁ ++ r :: res₂).filter (sectionMatch sid)).any fun r' => r'.id = p.1)
        = (((res₁ ++ res₂).filter (sectionMatch sid)).any fun r' => r'.id = p.1) := by
    intro p hp
    obtain ⟨r'', hr'', _, rfl⟩ := mem_analyze_adl_patterns hp
    have hne'' : r''.id ≠ r.id := hid r'' hr''
    apply Bool.eq_iff_iff.mpr
    simp only [List.any_eq_true, List.mem_filter, List.mem_append, List.mem_cons]
    constructor
    · rintro ⟨y, ⟨hy1 | (rfl | hy2), hy3⟩, hy4⟩
      · exact ⟨y, ⟨Or.inl hy1, hy3⟩, hy4⟩
      · exact absurd (by simpa using hy4) hne''.symm
      · exact ⟨y, ⟨Or.inr hy2, hy3⟩, hy4⟩
    · rintro ⟨y, ⟨hy1 | hy2, hy3⟩, hy4⟩
      · exact ⟨y, ⟨Or.inl hy1, hy3⟩, hy4⟩
      · exact ⟨y, ⟨Or.inr (Or.inr hy2), hy3⟩, hy4⟩
  unfold calculate_staffing_requirements
  dsimp only
  rw [if_neg hneL, if_neg hne, hA]
  rw [List.filter_congr hany]
  simp only [List.map_map]
  apply List.map_congr_left
  intro st _
  rfl

/-- Claim C10, witness: the theorem applied to resident 2 (positive shift
totals, no records) added after resident 1. -/
theorem c10_witness :
    ((∀ a ∈ [exAdlC10], a.resident_id ≠ exResC10B.id)
      ∧ (∀ r' ∈ [exResC10A] ++ ([] : List Resident), r'.id ≠ exResC10B.id)
      ∧ ([exResC10A] ++ ([] : List Resident)).filter (sectionMatch none) ≠ [])
    ∧ analyze_adl_patterns [exAdlC10] ([exResC10A] ++ exResC10B :: [])
        = analyze_adl_patterns [exAdlC10] ([exResC10A] ++ [])
    ∧ (calculate_staffing_requirements [exAdlC10]
          ([exResC10A] ++ exResC10B :: []) none).map
        (fun p => (p.1, p.2.total_care_hours, p.2.base_staff_required,
          p.2.acuity_adjustment, p.2.total_staff_recommended, p.2.high_acuity_count))
      = (calculate_staffing_requirements [exAdlC10] ([exResC10A] ++ []) none).map
        (fun p => (p.1, p.2.total_care_hours, p.2.base_staff_required,
          p.2.acuity_adjustment, p.2.total_staff_recommended, p.2.high_acuity_count)) :=
  ⟨⟨by decide, by decide, by decide⟩,
   (c10_recordless_resident_omitted [exAdlC10] [exResC10A] [] exResC10B
     (by decide) (by decide)).1,
   (c10_recordless_resident_omitted [exAdlC10] [exResC10A] [] exResC10B
     (by decide) (by decide)).2 none (by decide)⟩

/-- Claim C7 (code bug): the −30 deduction is applied to the per-shift
`staff.copy()` and discarded, so every later shift and day re-reads the
unchanged analysis score.  With two identically scoring CNAs and a one-CNA
day template, staff 1 is assigned on both days of the week (the stable sort
re-picks the first of the equal-score candidates); under the claimed
behaviour, day 2 would rank staff 1 at 70 against staff 2's 100 and assign
staff 2.  The second conjunct shows the availability scores both staff
members start (and, in the code, for ever keep) during the run. -/
theorem c7_penalty_discarded_eval :
    (generate_smart_week_schedule_schedule exSd ["2025-01-06", "2025-01-07"]).map
        (fun d => d.shifts.map fun p => assignedIds p.2)
      = [[[1], [], []], [[1], [], []]]
    ∧ (analyze_staffing_needs exSd).map (fun p => (p.1, p.2.availability_score))
      = [(1, 100), (2, 100)] :=
  ⟨by decide, by decide⟩

theorem mem_insertDescBy {α : Type} (k : α → ℚ) (a x : α) (l : List α) :
    x ∈ insertDescBy k a l ↔ x = a ∨ x ∈ l := by
  induction l with
  | nil => simp [insertDescBy]
  | cons b t ih =>
      unfold insertDescBy
      by_cases h : k a < k b
      · rw [if_pos h]
        simp only [List.mem_cons, ih]
        tauto
      · rw [if_neg h]
        simp only [List.mem_cons]

theorem mem_pySortDesc {α : Type} (k : α → ℚ) (x : α) (l : List α) :
    x ∈ pySortDesc k l ↔ x ∈ l := by
  induction l with
  | nil => simp [pySortDesc]
  | cons a t ih =>
      unfold pySortDesc
      rw [mem_insertDescBy, ih, List.mem_cons]

/-- Members of the available list are not in the day's assignment set. -/
theorem not_mem_ds_of_available (sd : SchedInput) (date : String)
    (roles : List String) (avail : List (ℕ × StaffAvail)) (ds : List ℕ)
    (sc : ScoredStaff)
    (h : sc ∈ get_available_staff_for_shift sd date roles avail ds) :
    sc.staff.id ∉ ds := by
  unfold get_available_staff_for_shift at h
  obtain ⟨st', hst', hres⟩ := List.mem_filterMap.mp h
  by_cases hc : st'.role ∈ roles ∧ st'.id ∉ ds
      ∧ is_staff_available_on_date sd st'.id date = true
  · rw [if_pos hc] at hres
    rcases hfind : avail.find? fun p => p.1 = st'.id with _ | p
    · simp [hfind] at hres
    · simp only [hfind] at hres
      by_cases hcur : p.2.current_hours < p.2.max_hours
      · rw [if_pos hcur] at hres
        cases hres
        exact hc.2.1
      · rw [if_neg hcur] at hres; cases hres
  · rw [if_neg hc] at hres; cases hres

/-- A staff id assigned by `_optimize_shift_staffing` was not in the day's
assignment set. -/
theorem not_mem_day_assignments_of_assigned (sd : SchedInput) (date : String)
    (st : ShiftType) (avail : List (ℕ × StaffAvail)) (ds : List ℕ) (sid : ℕ)
    (h : sid ∈ assignedIds (optimize_shift_staffing sd date st avail ds)) :
    sid ∉ ds := by
  unfold optimize_shift_staffing at h
  split at h
  · simp [assignedIds] at h
  · unfold assignedIds at h
    simp only [List.map_map, List.mem_map] at h
    obtain ⟨sc, hsc, rfl⟩ := h
    have havail : sc ∈ get_available_staff_for_shift sd date _ avail ds :=
      (mem_pySortDesc _ sc _).mp (List.mem_of_mem_take hsc)
    exact not_mem_ds_of_available sd date _ avail ds sc havail

/-- Every shift produced later in a day's Day → Swing → NOC loop excludes the
ids already assigned when it starts. -/
theorem processDayShifts_disjoint (sd : SchedInput) (avail : List (ℕ × StaffAvail))
    (date : String) :
    ∀ (sts : List ShiftType) (ds : List ℕ) (sid : ℕ), sid ∈ ds →
      ∀ p ∈ processDayShifts sd avail date sts ds, sid ∉ assignedIds p.2 := by
  intro sts
  induction sts with
  | nil => intro ds sid _ p hp; simp [processDayShifts] at hp
  | cons st rest ih =>
      intro ds sid hds p hp
      unfold processDayShifts at hp
      rcases List.mem_cons.mp hp with rfl | hp'
      · intro hsid
        exact not_mem_day_assignments_of_assigned sd date st avail ds sid hsid hds
      · exact ih (ds ++ assignedIds (optimize_shift_staffing sd date st avail ds)) sid
          (List.mem_append.mpr (Or.inl hds)) p hp'

theorem processDayShifts_count_le_one (sd : SchedInput)
    (avail : List (ℕ × StaffAvail)) (date : String) :
    ∀ (sts : List ShiftType) (ds : List ℕ) (sid : ℕ),
      ((processDayShifts sd avail date sts ds).filter
        (fun p => decide (sid ∈ assignedIds p.2))).length ≤ 1 := by
  intro sts
  induction sts with
  | nil => intro ds sid; simp [processDayShifts]
  | cons st rest ih =>
      intro ds sid
      unfold processDayShifts
      rw [List.filter_cons]
      by_cases hmem : sid ∈ assignedIds (optimize_shift_staffing sd date st avail ds)
      · rw [if_pos (by simpa using hmem)]
        have htail0 : (processDayShifts sd avail date rest
            (ds ++ assignedIds (optimize_shift_staffing sd date st avail ds))).filter
              (fun p => decide (sid ∈ assignedIds p.2)) = [] :=
          List.filter_eq_nil_iff.mpr fun p hp => by
            simpa using processDayShifts_disjoint sd avail date rest _ sid
              (List.mem_append.mpr (Or.inr hmem)) p hp
        rw [htail0]
        simp
      · rw [if_neg (by simpa using hmem)]
        exact ih _ sid

/-- Claim C2: in every weekly schedule produced by a scheduling run, each
staff id appears in the assigned-staff list of at most one of a day's three
shifts — the per-day assignment set excludes already-assigned staff from
every later shift of the same day. -/
theorem c2_no_double_booking :
    ∀ (sd : SchedInput) (week_dates : List String) (day : DaySchedule),
      day ∈ generate_smart_week_schedule_schedule sd week_dates →
      ∀ sid : ℕ,
        (day.shifts.filter fun p => decide (sid ∈ assignedIds p.2)).length ≤ 1 := by
  intro sd week_dates day hday sid
  unfold generate_smart_week_schedule_schedule create_optimal_schedule at hday
  obtain ⟨date, _, rfl⟩ := List.mem_map.mp hday
  exact processDayShifts_count_le_one sd (analyze_staffing_needs sd) date
    shiftTypesList [] sid

/-- Claim C2, witness: the theorem applied to the first generated day of a
concrete one-day run. -/
theorem c2_witness :
    exDayC2 ∈ generate_smart_week_schedule_schedule exSd ["2025-01-06"]
    ∧ (exDayC2.shifts.filter fun p => decide ((1 : ℕ) ∈ assignedIds p.2)).length ≤ 1 :=
  ⟨by
    rw [show generate_smart_week_schedule_schedule exSd ["2025-01-06"] = [exDayC2] from rfl]
    exact List.mem_singleton.mpr rfl,
   c2_no_double_booking exSd ["2025-01-06"] exDayC2
    (by
      rw [show generate_smart_week_schedule_schedule exSd ["2025-01-06"] = [exDayC2] from
        rfl]
      exact List.mem_singleton.mpr rfl) 1⟩

theorem foldl_shiftStatsStep (l : List (ShiftType × ShiftSchedule)) (acc : ℕ × ℕ × ℚ) :
    l.foldl shiftStatsStep acc
      = (acc.1 + l.countP (fun p => decide (p.2.status = .optimized)),
         acc.2.1 + l.countP (fun p =>
           decide (p.2.status = .optimized ∧ p.2.coverage_percentage ≥ 100)),
         acc.2.2 + ((l.filter (fun p => decide (p.2.status = .optimized))).map
           (fun p => p.2.coverage_percentage)).sum) := by
  induction l generalizing acc with
  | nil => simp
  | cons e t ih =>
      rw [List.foldl_cons, ih]
      unfold shiftStatsStep
      by_cases h1 : e.2.status = .optimized
      · rw [if_pos h1]
        by_cases h2 : e.2.coverage_percentage ≥ 100
        · rw [if_pos h2]
          simp [h1, h2, List.countP_cons, List.filter_cons, Prod.ext_iff]
          exact ⟨by omega, by omega, by ring⟩
        · rw [if_neg h2]
          simp [h1, h2, List.countP_cons, List.filter_cons, Prod.ext_iff]
          exact ⟨by omega, by ring⟩
      · rw [if_neg h1]
        simp [h1, List.countP_cons, List.filter_cons, Prod.ext_iff]

theorem scheduleStats_eq (schedule : List DaySchedule) :
    scheduleStats schedule
      = (optCount schedule, coveredCount schedule, coverageSum schedule) := by
  unfold scheduleStats
  suffices h : ∀ acc : ℕ × ℕ × ℚ,
      schedule.foldl (fun acc d => d.shifts.foldl shiftStatsStep acc) acc
        = (acc.1 + optCount schedule, acc.2.1 + coveredCount schedule,
           acc.2.2 + coverageSum schedule) by
    rw [h (0, 0, 0)]
    simp
  induction schedule with
  | nil =>
      intro acc
      simp [optCount, coveredCount, coverageSum, allShifts]
  | cons d t ih =>
      intro acc
      have hopt : optCount (d :: t)
          = (d.shifts.countP fun p => decide (p.2.status = .optimized)) + optCount t := by
        simp [optCount, allShifts, List.countP_append]
      have hcov : coveredCount (d :: t)
          = (d.shifts.countP fun p =>
              decide (p.2.status = .optimized ∧ p.2.coverage_percentage ≥ 100))
            + coveredCount t := by
        simp [coveredCount, allShifts, List.countP_append]
      have hsum : coverageSum (d :: t)
          = ((d.shifts.filter fun p => decide (p.2.status = .optimized)).map
              (fun p => p.2.coverage_percentage)).sum + coverageSum t := by
        simp [coverageSum, allShifts, List.filter_append]
      rw [List.foldl_cons, ih, foldl_shiftStatsStep, hopt, hcov, hsum]
      simp only [Prod.mk.injEq]
      exact ⟨by omega, by omega, by ring⟩

theorem staffHours_day_no_opt (l : List (ShiftType × ShiftSchedule))
    (acc : List (ℕ × ℚ)) (h : ∀ p ∈ l, ¬p.2.status = .optimized) :
    l.foldl
      (fun acc p =>
        if p.2.status = .optimized then
          p.2.assigned_staff.foldl (fun acc a => bumpHours acc a.staff_id) acc
        else acc)
      acc = acc := by
  induction l generalizing acc with
  | nil => rfl
  | cons e t ih =>
      rw [List.foldl_cons, if_neg (h e (List.mem_cons_self e t))]
      exact ih acc fun p hp => h p (List.mem_cons_of_mem e hp)

theorem staff_hours_of_no_opt (schedule : List DaySchedule) :
    (∀ p ∈ allShifts schedule, ¬p.2.status = .optimized) →
    staff_hours_of schedule = [] := by
  suffices hs : ∀ sched : List DaySchedule,
      (∀ p ∈ allShifts sched, ¬p.2.status = .optimized) →
      ∀ acc : List (ℕ × ℚ),
        sched.foldl
          (fun acc d =>
            d.shifts.foldl
              (fun acc p =>
                if p.2.status = .optimized then
                  p.2.assigned_staff.foldl (fun acc a => bumpHours acc a.staff_id) acc
                else acc)
              acc)
          acc = acc by
    intro h
    unfold staff_hours_of
    exact hs schedule h []
  intro sched
  induction sched with
  | nil => intro _ acc; rfl
  | cons d t ih =>
      intro h acc
      have hmem1 : ∀ p ∈ d.shifts, p ∈ allShifts (d :: t) := by
        intro p hp
        simp only [allShifts, List.map_cons, List.flatten_cons, List.mem_append]
        exact Or.inl hp
      have hmem2 : ∀ p ∈ allShifts t, p ∈ allShifts (d :: t) := by
        intro p hp
        simp only [allShifts, List.map_cons, List.flatten_cons, List.mem_append]
        exact Or.inr hp
      rw [List.foldl_cons, staffHours_day_no_opt d.shifts acc
        (fun p hp => h p (hmem1 p hp))]
      exact ih (fun p hp => h p (hmem2 p hp)) acc

/-- Claim C6 (amended): the whole-schedule confidence equals
`min(100, max(0, int(covered_fraction*40 + mean_coverage_percentage*30 +
balance*30)))` and always lies in [0, 100] — the fully-covered component is
capped at 40 and the balance component at 30, but the mean-coverage component
enters on the 0-100 percentage scale and is bounded only by the final clamp;
the balance score is `max(0, 1 - stddev/mean)` of per-staff assigned hours,
which is 1 (not 0) when exactly one staff member is assigned and 0 only when
there are no assignments. -/
theorem c6_schedule_confidence_formula :
    (∀ schedule : List DaySchedule,
        calculate_schedule_confidence schedule = schedule_confidence_formula schedule
        ∧ 0 ≤ calculate_schedule_confidence schedule
        ∧ calculate_schedule_confidence schedule ≤ 100)
    ∧ (∀ (schedule : List DaySchedule) (id : ℕ) (h : ℚ),
        staff_hours_of schedule = [(id, h)] → 0 < h →
        calculate_balance_score schedule = 1)
    ∧ (∀ schedule : List DaySchedule,
        staff_hours_of schedule = [] → calculate_balance_score schedule = 0) := by
  have hbal0 : ∀ schedule : List DaySchedule, staff_hours_of schedule = [] →
      calculate_balance_score schedule = 0 := by
    intro s h0
    unfold calculate_balance_score
    rw [h0]
    rfl
  have heq : ∀ s : List DaySchedule,
      calculate_schedule_confidence s = schedule_confidence_formula s := by
    intro s
    unfold calculate_schedule_confidence
    by_cases hs : s = []
    · subst hs
      rw [if_pos rfl]
      exact (by decide : schedule_confidence_formula ([] : List DaySchedule) = 0).symm
    · rw [if_neg hs]
      simp only [scheduleStats_eq]
      by_cases ho : optCount s = 0
      · rw [if_pos ho]
        have hno : ∀ p ∈ allShifts s, ¬p.2.status = .optimized := by
          have := List.countP_eq_zero.mp ho
          intro p hp hopt
          exact absurd (by simpa using hopt) (by simpa using this p hp)
        have hcov : coveredCount s = 0 := by
          apply List.countP_eq_zero.mpr
          intro p hp
          simp only [decide_eq_true_eq, not_and]
          intro hopt
          exact absurd hopt (hno p hp)
        have hsum0 : coverageSum s = 0 := by
          unfold coverageSum
          rw [List.filter_eq_nil_iff.mpr fun p hp => by simpa using hno p hp]
          rfl
        have hbal : calculate_balance_score s = 0 :=
          hbal0 s (staff_hours_of_no_opt s hno)
        unfold schedule_confidence_formula
        rw [ho, hcov, hsum0, hbal]
        norm_num [pyTrunc]
      · rw [if_neg ho]
        rfl
  refine ⟨fun s => ⟨heq s, ?_, ?_⟩, ?_, hbal0⟩
  · rw [heq s]
    exact le_min (by norm_num) (le_max_left 0 _)
  · rw [heq s]
    exact min_le_left 100 _
  · intro s id h hsh hpos
    unfold calculate_balance_score
    rw [hsh]
    rw [if_neg (by simp)]
    have hsq : Rat.sqrt 0 = 0 := by decide
    simp only [List.map_cons, List.map_nil, List.sum_cons, List.sum_nil,
      List.length_cons, List.length_nil]
    norm_num [hsq]
    exact hpos

/-- Claim C6, counterexample: one optimized day shift requiring 2 with 1
assigned (coverage 50%).  The code yields confidence 100 — the mean-coverage
term alone contributes 50 × 30 = 1500 before the final clamp, and the
single-staff balance is 1 — while the claim's each-component-capped formula
(mean coverage as a fraction, balance 0 for a lone staff member) yields 15. -/
theorem c6_confidence_counterexample :
    calculate_schedule_confidence exSchedC6 = 100
    ∧ schedule_confidence_claimC6 exSchedC6 = 15
    ∧ calculate_schedule_confidence exSchedC6 ≠ schedule_confidence_claimC6 exSchedC6 :=
  ⟨by decide, by decide, by decide⟩

/-- Claim C6, witness: the theorem applied to a fully covered single-staff
one-shift schedule. -/
theorem c6_witness :
    calculate_schedule_confidence exSchedC6W = schedule_confidence_formula exSchedC6W
    ∧ (staff_hours_of exSchedC6W = [(1, 8)] ∧ (0 : ℚ) < 8)
    ∧ calculate_balance_score exSchedC6W = 1 :=
  ⟨(c6_schedule_confidence_formula.1 exSchedC6W).1,
   ⟨by decide, by norm_num⟩,
   c6_schedule_confidence_formula.2.1 exSchedC6W 1 8 (by decide) (by norm_num)⟩
